import Mathlib

/-!
# pthread_cond_timedwait_test: a verification development

Shallow embedding of `main.c`: the clock utilities (`msleep`, the stopwatch,
`to_abstime`), the setter thread `set_flag`, the driver `main` with its wait
loop, and a step semantics of the two threads over the shared flag, the mutex
and the condition variable.

Machine integers follow the LP64 data model the program is built for:
`u64 = unsigned long` is 64 bits wide, `time_t` and `long` are 64-bit signed,
`int` is 32-bit signed.  Unsigned values are `Nat` reduced modulo
`2^64 = 18446744073709551616`, signed values are `Int` brought back into range by
`to_i64` / `to_i32`.

What the C library and the operating system do is an input of each function:
the status and result of every call it makes, in the order of the calls.
-/

namespace CondTimedwait

/-! ## Machine integers -/

/-- The macro `ONE_MILLION`. -/
def ONE_MILLION : Nat := 1000000

/-- The macro `ONE_BILLION`. -/
def ONE_BILLION : Nat := 1000000000

/-- Conversion of a signed integer to `unsigned long`: reduction modulo `2^64`. -/
def to_u64 (x : Int) : Nat := (x % 18446744073709551616).toNat

/-- Conversion of an `unsigned long` to `long` / `time_t`: values from `2^63` on
wrap to the negatives (two's complement, as GCC and Clang define it). -/
def to_i64 (n : Nat) : Int :=
  if n % 18446744073709551616 < 9223372036854775808 then ((n % 18446744073709551616 : Nat) : Int)
  else ((n % 18446744073709551616 : Nat) : Int) - 18446744073709551616

/-- The builtin `__builtin_umull_overflow`: the wrapped product and whether the
exact product left the `unsigned long` range. -/
def umull_overflow (a b : Nat) : Bool × Nat :=
  (decide (18446744073709551616 ≤ a * b), (a * b) % 18446744073709551616)

/-- The builtin `__builtin_uaddl_overflow`: the wrapped sum and whether the exact
sum left the `unsigned long` range. -/
def uaddl_overflow (a b : Nat) : Bool × Nat :=
  (decide (18446744073709551616 ≤ a + b), (a + b) % 18446744073709551616)

/-- The C conversion of a `bool` result to `int`. -/
def bool_to_int (b : Bool) : Nat := if b then 1 else 0

/-! ## Clock utilities -/

/-- The C `struct timespec`: `tv_sec : time_t`, `tv_nsec : long`. -/
structure Timespec where
  tv_sec : Int
  tv_nsec : Int
deriving DecidableEq, Repr

/-- What one call `clock_gettime(CLOCK_REALTIME, &curr_time)` does: the status it
returns and the content of `curr_time` after the call. -/
structure ClockReading where
  err : Int
  time : Timespec
deriving DecidableEq, Repr

/-- Lines the program writes to standard error. -/
inductive Stderr where
  | to_abstime_overflow (relative_ms : Nat) (tv_sec tv_nsec : Int)
  | clock_gettime_failed (err : Int)
  | set_flag_lock_failed (err : Int)
  | set_flag_signal_failed (err : Int)
  | set_flag_unlock_failed (err : Int)
  | arg1_failed
  | arg2_failed
deriving DecidableEq, Repr

/-- Result of `to_abstime`: the returned status, what was stored through
`out_abstime` (`none`: nothing was stored), the lines printed to standard
error, and the final value of the local `overflow`. -/
structure AbstimeResult where
  err : Int
  out_abstime : Option Timespec
  stderr : List Stderr
  overflow : Nat
deriving DecidableEq, Repr

/-- The function `to_abstime(relative_ms, out_abstime)`, given what its clock query
returns. -/
def to_abstime (clk : ClockReading) (relative_ms : Nat) : AbstimeResult :=
  let curr_time := clk.time
  let err := clk.err
  if err = 0 then
    let overflow : Nat := 0
    let mul := umull_overflow relative_ms ONE_MILLION
    let relative_ns := mul.2
    let overflow := overflow ||| bool_to_int mul.1
    let add := uaddl_overflow (to_u64 curr_time.tv_nsec) relative_ns
    let end_nsec := add.2
    let overflow := overflow ||| bool_to_int add.1
    let stderr :=
      if overflow ≠ 0 then
        [Stderr.to_abstime_overflow relative_ms curr_time.tv_sec curr_time.tv_nsec]
      else []
    let extra_sec := end_nsec / ONE_BILLION
    { err := err
      out_abstime := some
        { tv_sec := to_i64 ((to_u64 curr_time.tv_sec + extra_sec) % 18446744073709551616)
          tv_nsec := to_i64
            ((end_nsec + 18446744073709551616
                - (extra_sec * ONE_BILLION) % 18446744073709551616) % 18446744073709551616) }
      stderr := stderr
      overflow := overflow }
  else
    { err := err
      out_abstime := none
      stderr := [Stderr.clock_gettime_failed err]
      overflow := 0 }

/-- Conversion of a `long` to `int`: the low 32 bits, read as two's complement. -/
def to_i32 (x : Int) : Int :=
  if x % 4294967296 < 2147483648 then x % 4294967296 else x % 4294967296 - 4294967296

/-- The `errno` value `EINTR`. -/
def EINTR : Int := 4

/-- The `errno` value `EINVAL`. -/
def EINVAL : Int := 22

/-- The `errno` value `ETIMEDOUT`. -/
def ETIMEDOUT : Int := 110

/-- The exit status `EXIT_FAILURE`. -/
def EXIT_FAILURE : Nat := 1

/-- The exit status `EXIT_SUCCESS`. -/
def EXIT_SUCCESS : Nat := 0

/-! ## msleep -/

/-- What one call `nanosleep(&ts, &ts)` does: the status it returns, `errno` after
the call, and the content of `ts` after the call (for an interrupted call, the
remaining time). -/
structure NanosleepOutcome where
  res : Int
  errno : Int
  rem : Timespec
deriving DecidableEq, Repr

/-- Result of `msleep`: the returned status, the `timespec` handed to each
`nanosleep` call in order, and whether the `EINVAL` branch was taken. -/
structure MsleepResult where
  res : Int
  requests : List Timespec
  set_einval : Bool
deriving DecidableEq, Repr

/-- The `do ... while (res && errno == EINTR)` loop of `msleep`, run against the
outcomes of the successive `nanosleep` calls.  `none`: the outcomes end while the
loop still has to call `nanosleep` again, so `msleep` has not returned. -/
def msleep_loop (ts : Timespec) : List NanosleepOutcome → Option (Int × List Timespec)
  | [] => none
  | o :: rest =>
    if o.res ≠ 0 ∧ o.errno = EINTR then
      match msleep_loop o.rem rest with
      | none => none
      | some r => some (r.1, ts :: r.2)
    else some (o.res, [ts])

/-- The function `msleep(msec)`. -/
def msleep (msec : Nat) (env : List NanosleepOutcome) : Option MsleepResult :=
  if msec < 0 then
    some { res := -1, requests := [], set_einval := true }
  else
    let ts : Timespec :=
      { tv_sec := to_i64 (msec / 1000)
        tv_nsec := to_i64 ((msec % 1000) * 1000000 % 18446744073709551616) }
    match msleep_loop ts env with
    | none => none
    | some r => some { res := r.1, requests := r.2, set_einval := false }

/-! ## StopWatch -/

/-- The C `struct StopWatch`. -/
structure StopWatch where
  start_ns : Nat
  during_ns : Nat
deriving DecidableEq, Repr

/-- The function `stopwatch_start`: the new stopwatch and the returned status. -/
def stopwatch_start (clk : ClockReading) : StopWatch × Int :=
  ({ start_ns := to_u64 (clk.time.tv_sec * ONE_BILLION + clk.time.tv_nsec), during_ns := 0 },
    clk.err)

/-- The function `stopwatch_stop`: the updated stopwatch and the returned status. -/
def stopwatch_stop (sw : StopWatch) (clk : ClockReading) : StopWatch × Int :=
  let curr_ns := to_u64 (clk.time.tv_sec * ONE_BILLION + clk.time.tv_nsec)
  ({ sw with during_ns :=
        (curr_ns + 18446744073709551616 - sw.start_ns % 18446744073709551616)
          % 18446744073709551616 },
    clk.err)

/-! ## Events -/

/-- The calls guarded by `exit_if_error` in `main`, named by their message. -/
inductive Site where
  | pthread_mutex_init
  | pthread_cond_init
  | pthread_create
  | pthread_mutex_lock
  | pthread_mutex_unlock
  | pthread_join
  | pthread_mutex_destroy
  | pthread_cond_destroy
deriving DecidableEq, Repr

/-- What a thread does that the rest of the world can see, in program order.  The
deadline handed to `pthread_cond_timedwait` is the content of the local
`wait_time` (`none`: it was never stored to). -/
inductive Event where
  | stderr (line : Stderr)
  | perror (site : Site) (en : Int)
  | stdout_iter (ms : Nat) (flag : Bool) (wait_result : Int)
  | stdout_succeeded
  | stdout_failed (wait_result : Int)
  | msleep (msec : Nat)
  | flag_store (v : Bool)
  | mutex_init
  | cond_init
  | thread_create (sleep_ms : Nat)
  | mutex_lock
  | mutex_unlock
  | cond_signal
  | cond_timedwait (abstime : Option Timespec)
  | thread_join
  | mutex_destroy
  | cond_destroy
  | thread_return
deriving DecidableEq, Repr

/-! ## The setter thread -/

/-- What the library calls of `set_flag` return: the outcomes of the `nanosleep`
calls inside `msleep`, and the statuses of `pthread_mutex_lock`,
`pthread_cond_signal` and `pthread_mutex_unlock`. -/
structure SetFlagEnv where
  sleep : List NanosleepOutcome
  lock_err : Int
  signal_err : Int
  unlock_err : Int
deriving DecidableEq, Repr

/-- The thread function `set_flag` with `args->sleep_ms = sleep_ms`: its events, up
to the `return userdata` that ends the thread.  The function has no call of
`exit`.  `none`: `msleep` has not returned. -/
def set_flag (sleep_ms : Nat) (env : SetFlagEnv) : Option (List Event) :=
  match msleep sleep_ms env.sleep with
  | none => none
  | some _ =>
    let t := [Event.msleep sleep_ms, Event.mutex_lock]
    let t := if env.lock_err ≠ 0 then t ++ [Event.stderr (.set_flag_lock_failed env.lock_err)] else t
    let t := t ++ [Event.flag_store true, Event.cond_signal]
    let t :=
      if env.signal_err ≠ 0 then t ++ [Event.stderr (.set_flag_signal_failed env.signal_err)] else t
    let t := t ++ [Event.mutex_unlock]
    let t :=
      if env.unlock_err ≠ 0 then t ++ [Event.stderr (.set_flag_unlock_failed env.unlock_err)] else t
    some (t ++ [Event.thread_return])

/-! ## atoi -/

/-- The C library `isspace` in the "C" locale. -/
def isspace (c : Char) : Bool :=
  c.toNat = 32 || (9 ≤ c.toNat && c.toNat ≤ 13)

/-- The C library `isdigit`. -/
def isdigit (c : Char) : Bool :=
  48 ≤ c.toNat && c.toNat ≤ 57

/-- Skips leading white space. -/
def skip_spaces : List Char → List Char
  | [] => []
  | c :: cs => if isspace c then skip_spaces cs else c :: cs

/-- Value of the leading decimal digits, continuing from `acc`. -/
def parse_digits : List Char → Nat → Nat
  | [], acc => acc
  | c :: cs, acc => if isdigit c then parse_digits cs (acc * 10 + (c.toNat - 48)) else acc

/-- The C library `strtol(s, NULL, 10)`: optional white space, optional sign,
decimal digits; a value outside `long` is clamped to `LONG_MIN` / `LONG_MAX`. -/
def strtol (s : List Char) : Int :=
  match skip_spaces s with
  | [] => 0
  | c :: cs =>
    if c.toNat = 45 then max (-(parse_digits cs 0 : Int)) (-9223372036854775808)
    else if c.toNat = 43 then min (parse_digits cs 0 : Int) 9223372036854775807
    else min (parse_digits (c :: cs) 0 : Int) 9223372036854775807

/-- The C library `atoi`, as glibc implements it: `(int) strtol(s, NULL, 10)`.  For
a value that fits `int` this is what the C standard requires. -/
def atoi (s : String) : Int := to_i32 (strtol s.toList)

/-! ## main -/

/-- What one pass through the body of the wait loop meets: the clock read by
`stopwatch_start`, the status `pthread_cond_timedwait` returns, the value of
`flag` once the wait has returned (the mutex is held again), and the clock read
by `stopwatch_stop`. -/
structure WaitOutcome where
  start_clk : ClockReading
  wait_result : Int
  flag : Bool
  stop_clk : ClockReading
deriving DecidableEq, Repr

/-- State of the wait loop when the model stops following it: its events, the
number of `pthread_cond_timedwait` calls made, and the values of `flag` and
`wait_result` at loop exit (`none`: the last call has not returned). -/
structure LoopResult where
  trace : List Event
  calls : Nat
  final : Option (Bool × Int)
deriving DecidableEq, Repr

/-- The loop `while (flag == false && wait_result == 0) { ... }` of `main`, from the
current values of `flag` and `wait_result`, against the outcomes of the
successive waits. -/
def wait_loop (abstime : Option Timespec) : Bool → Int → List WaitOutcome → LoopResult
  | flag, wait_result, outs =>
    if flag == false && wait_result == 0 then
      match outs with
      | [] => { trace := [Event.cond_timedwait abstime], calls := 1, final := none }
      | o :: rest =>
        let stopwatch := (stopwatch_start o.start_clk).1
        let stopwatch := (stopwatch_stop stopwatch o.stop_clk).1
        let r := wait_loop abstime o.flag o.wait_result rest
        { trace :=
            Event.cond_timedwait abstime
              :: Event.stdout_iter (stopwatch.during_ns / ONE_MILLION) o.flag o.wait_result
              :: r.trace
          calls := r.calls + 1
          final := r.final }
    else { trace := [], calls := 0, final := some (flag, wait_result) }

/-- The summary line `main` prints after the loop. -/
def summary (wait_result : Int) : Event :=
  if wait_result = 0 then Event.stdout_succeeded else Event.stdout_failed wait_result

/-- What the library calls of `main` return. -/
structure MainEnv where
  argv1 : String
  argv2 : String
  mutex_init_err : Int
  cond_init_err : Int
  create_err : Int
  lock_err : Int
  clock : ClockReading
  waits : List WaitOutcome
  unlock_err : Int
  join_err : Int
  mutex_destroy_err : Int
  cond_destroy_err : Int
deriving DecidableEq, Repr

/-- A run of `main`: its events and the exit status (`none`: `main` is blocked in
`pthread_cond_timedwait`). -/
structure Run where
  trace : List Event
  exit : Option Nat
deriving DecidableEq, Repr

/-- The macro `exit_if_error(en, msg)` followed by the rest of the program `k`. -/
def exit_if_error (t : List Event) (en : Int) (site : Site) (k : List Event → Run) : Run :=
  if en ≠ 0 then { trace := t ++ [Event.perror site en], exit := some EXIT_FAILURE }
  else k t

/-- Lines 171 to 206 of `main`: the flag reset, the wait loop, the summary, and
the teardown. -/
def main_wait (env : MainEnv) (wait_time : Option Timespec) (t : List Event) : Run :=
  let t := t ++ [Event.flag_store false]
  let loop := wait_loop wait_time false 0 env.waits
  let t := t ++ loop.trace
  match loop.final with
  | none => { trace := t, exit := none }
  | some (_, wait_result) =>
    let t := t ++ [summary wait_result, Event.mutex_unlock]
    exit_if_error t env.unlock_err Site.pthread_mutex_unlock fun t =>
    exit_if_error (t ++ [Event.thread_join]) env.join_err Site.pthread_join fun t =>
    exit_if_error (t ++ [Event.mutex_destroy]) env.mutex_destroy_err Site.pthread_mutex_destroy
      fun t =>
    exit_if_error (t ++ [Event.cond_destroy]) env.cond_destroy_err Site.pthread_cond_destroy
      fun t =>
    { trace := t, exit := some EXIT_SUCCESS }

/-- The function `main`, called with the two arguments `argv[1]` and `argv[2]`.  Its
two `assert`s are left out, they cannot fail: the first compares the size of a
type with itself, the second asserts the value of an assignment of a non-null
address. -/
def main (env : MainEnv) : Run :=
  let cond_wait_ms := to_u64 (atoi env.argv1)
  let t := if cond_wait_ms = 0 then [Event.stderr Stderr.arg1_failed] else []
  let set_flag_wait_ms := to_u64 (atoi env.argv2)
  if set_flag_wait_ms = 0 then
    { trace := t ++ [Event.stderr Stderr.arg2_failed], exit := some EXIT_FAILURE }
  else
    let t := t ++ [Event.flag_store false, Event.mutex_init]
    exit_if_error t env.mutex_init_err Site.pthread_mutex_init fun t =>
    exit_if_error (t ++ [Event.cond_init]) env.cond_init_err Site.pthread_cond_init fun t =>
    exit_if_error (t ++ [Event.thread_create set_flag_wait_ms]) env.create_err Site.pthread_create
      fun t =>
    exit_if_error (t ++ [Event.mutex_lock]) env.lock_err Site.pthread_mutex_lock fun t =>
    let abs := to_abstime env.clock cond_wait_ms
    let wait_time := abs.out_abstime
    let err := abs.err
    let t := t ++ abs.stderr.map Event.stderr
    if err ≠ 0 then { trace := t, exit := some EXIT_FAILURE }
    else main_wait env wait_time t

/-! ## The two threads together

A step semantics of the program from the point where `pthread_create` has
returned 0 (line 160) in `main` and `set_flag` starts (line 104), over the shared
`flag`, the mutex and the condition variable.  Every library call succeeds; the
only statuses `pthread_cond_timedwait` returns are 0 and `ETIMEDOUT`.  Time is a
logical clock in milliseconds that advances by `tick`; a thread may be delayed
for any time between two of its steps. -/

/-- The two threads. -/
inductive Tid where
  | main
  | setter
deriving DecidableEq, Repr

/-- Program points of `main`, named by the next thing it does. -/
inductive MainPc where
  | lock
  | to_abstime
  | reset
  | test
  | wait_call
  | parked
  | woken (status : Int)
  | summary
  | unlock
  | join
  | done
deriving DecidableEq, Repr

/-- Program points of `set_flag`, named by the next thing it does. -/
inductive SetterPc where
  | sleep
  | lock
  | store
  | signal
  | unlock
  | done
deriving DecidableEq, Repr

/-- State of the two-thread program. -/
structure State where
  now : Nat
  flag : Bool
  mutex : Option Tid
  mpc : MainPc
  spc : SetterPc
  deadline : Nat
  wait_result : Int
  calls : Nat
deriving DecidableEq, Repr

/-- What can happen next: a millisecond passes, a thread takes its next step, or
the parked waiter is woken by the deadline or for no reason. -/
inductive Action where
  | tick
  | main
  | setter
  | timeout
  | spurious
deriving DecidableEq, Repr

/-- The state right after `pthread_create` has succeeded: `flag` was initialised
false at line 139, the mutex is free, nobody waits on the condition. -/
def init : State :=
  { now := 0, flag := false, mutex := none, mpc := MainPc.lock, spc := SetterPc.sleep,
    deadline := 0, wait_result := 0, calls := 0 }

/-- The next step of `main` (lines 162 to 197).  `none`: `main` is blocked. -/
def step_main (timeout_ms : Nat) (s : State) : Option State :=
  match s.mpc with
  | MainPc.lock =>
    if s.mutex = none then some { s with mutex := some Tid.main, mpc := MainPc.to_abstime }
    else none
  | MainPc.to_abstime => some { s with deadline := s.now + timeout_ms, mpc := MainPc.reset }
  | MainPc.reset => some { s with flag := false, wait_result := 0, mpc := MainPc.test }
  | MainPc.test =>
    if s.flag == false && s.wait_result == 0 then some { s with mpc := MainPc.wait_call }
    else some { s with mpc := MainPc.summary }
  | MainPc.wait_call => some { s with mutex := none, mpc := MainPc.parked, calls := s.calls + 1 }
  | MainPc.parked => none
  | MainPc.woken status =>
    if s.mutex = none then
      some { s with mutex := some Tid.main, wait_result := status, mpc := MainPc.test }
    else none
  | MainPc.summary => some { s with mpc := MainPc.unlock }
  | MainPc.unlock => some { s with mutex := none, mpc := MainPc.join }
  | MainPc.join => if s.spc = SetterPc.done then some { s with mpc := MainPc.done } else none
  | MainPc.done => none

/-- The next step of `set_flag` (lines 104 to 122).  `none`: the thread is blocked
or has returned. -/
def step_setter (delay_ms : Nat) (s : State) : Option State :=
  match s.spc with
  | SetterPc.sleep => if delay_ms ≤ s.now then some { s with spc := SetterPc.lock } else none
  | SetterPc.lock =>
    if s.mutex = none then some { s with mutex := some Tid.setter, spc := SetterPc.store }
    else none
  | SetterPc.store => some { s with flag := true, spc := SetterPc.signal }
  | SetterPc.signal =>
    if s.mpc = MainPc.parked then some { s with mpc := MainPc.woken 0, spc := SetterPc.unlock }
    else some { s with spc := SetterPc.unlock }
  | SetterPc.unlock => some { s with mutex := none, spc := SetterPc.done }
  | SetterPc.done => none

/-- One step of the program.  `none`: the action is not possible in this state. -/
def step (timeout_ms delay_ms : Nat) (a : Action) (s : State) : Option State :=
  match a with
  | Action.tick => some { s with now := s.now + 1 }
  | Action.main => step_main timeout_ms s
  | Action.setter => step_setter delay_ms s
  | Action.timeout =>
    if s.mpc = MainPc.parked ∧ s.deadline ≤ s.now then some { s with mpc := MainPc.woken ETIMEDOUT }
    else none
  | Action.spurious =>
    if s.mpc = MainPc.parked then some { s with mpc := MainPc.woken 0 } else none

/-- The states an execution goes through, the first one included.  `none`: some
action of the schedule was not possible. -/
def run (timeout_ms delay_ms : Nat) : List Action → State → Option (List State)
  | [], s => some [s]
  | a :: rest, s =>
    match step timeout_ms delay_ms a s with
    | none => none
    | some s' =>
      match run timeout_ms delay_ms rest s' with
      | none => none
      | some l => some (s :: l)

/-- Whether `main` holds the mutex at this program point. -/
def holds_main : MainPc → Bool
  | MainPc.to_abstime => true
  | MainPc.reset => true
  | MainPc.test => true
  | MainPc.wait_call => true
  | MainPc.summary => true
  | MainPc.unlock => true
  | _ => false

/-- Whether `set_flag` holds the mutex at this program point. -/
def holds_setter : SetterPc → Bool
  | SetterPc.store => true
  | SetterPc.signal => true
  | SetterPc.unlock => true
  | _ => false

/-- The mutex is owned by the thread whose program point lies between its lock and
its unlock, and by nobody otherwise. -/
def lock_invariant (s : State) : Prop :=
  (s.mutex = some Tid.main ↔ holds_main s.mpc = true) ∧
  (s.mutex = some Tid.setter ↔ holds_setter s.spc = true)

/-- Whether `main` is past its store of line 171. -/
def past_reset : MainPc → Bool
  | MainPc.lock => false
  | MainPc.to_abstime => false
  | MainPc.reset => false
  | _ => true

/-- Whether `set_flag` is past its store of line 111. -/
def stored : SetterPc → Bool
  | SetterPc.signal => true
  | SetterPc.unlock => true
  | SetterPc.done => true
  | _ => false

/-- Once `main` is past line 171, the flag is true from the setter's store on. -/
def flag_invariant (s : State) : Prop :=
  past_reset s.mpc = true ∧ (stored s.spc = true → s.flag = true)

/-- The last state of an execution. -/
def exec (timeout_ms delay_ms : Nat) (sched : List Action) (s : State) : Option State :=
  match run timeout_ms delay_ms sched s with
  | none => none
  | some l => l.getLast?

/-! ## Sample environments -/

/-- A clock query that succeeds at 1700000000 s 999999999 ns. -/
def sample_clock : ClockReading :=
  { err := 0, time := { tv_sec := 1700000000, tv_nsec := 999999999 } }

/-- A `nanosleep` call that completes. -/
def slept : NanosleepOutcome :=
  { res := 0, errno := 0, rem := { tv_sec := 0, tv_nsec := 0 } }

/-- The environment of `main` in which every library call succeeds, for the given
arguments, clock query of `to_abstime` and wait outcomes. -/
def env_ok (argv1 argv2 : String) (clock : ClockReading) (waits : List WaitOutcome) : MainEnv :=
  { argv1 := argv1, argv2 := argv2, mutex_init_err := 0, cond_init_err := 0, create_err := 0,
    lock_err := 0, clock := clock, waits := waits, unlock_err := 0, join_err := 0,
    mutex_destroy_err := 0, cond_destroy_err := 0 }

/-- A wait that returns `wait_result` with `flag` as given, timed by two successful
clock queries. -/
def sample_wait (wait_result : Int) (flag : Bool) : WaitOutcome :=
  { start_clk := sample_clock, wait_result := wait_result, flag := flag,
    stop_clk := { err := 0, time := { tv_sec := 1700000001, tv_nsec := 1999999 } } }

/-! ## Facts on the machine integers -/

theorem to_u64_of_nonneg (x : Int) (h0 : 0 ≤ x) (h1 : x < 18446744073709551616) :
    to_u64 x = x.toNat := by
  unfold to_u64
  rw [Int.emod_eq_of_lt h0 h1]

theorem to_u64_lt (x : Int) : to_u64 x < 18446744073709551616 := by
  unfold to_u64
  omega

theorem to_i64_of_lt (n : Nat) (h : n < 9223372036854775808) : to_i64 n = (n : Int) := by
  unfold to_i64
  have : n % 18446744073709551616 = n := Nat.mod_eq_of_lt (by omega)
  rw [this, if_pos h]

theorem bool_to_int_or (a b : Bool) :
    (0 ||| bool_to_int a ||| bool_to_int b ≠ 0) ↔ (a = true ∨ b = true) := by
  cases a <;> cases b <;> simp [bool_to_int]

theorem to_i64_wrap_add (x : Int) (e : Nat) (h0 : -9223372036854775808 ≤ x)
    (h1 : x + e < 9223372036854775808) (he : e < 18446744073709551616) :
    to_i64 ((to_u64 x + e) % 18446744073709551616) = x + e := by
  unfold to_i64 to_u64
  simp only [Nat.mod_mod]
  split <;> omega

theorem sub_mul_div_wrap (n : Nat) (hn : n < 18446744073709551616) :
    (n + 18446744073709551616 - (n / 1000000000 * 1000000000) % 18446744073709551616)
      % 18446744073709551616 = n % 1000000000 := by
  omega

/-- C3: with a successful clock query and a non-negative `tv_nsec`, the local
`overflow` of `to_abstime` ends non-zero, and the overflow diagnostic is the line
printed, exactly when the exact value `tv_nsec + relative_ms * 10^6` is at least
`2^64`; otherwise nothing is printed. -/
theorem to_abstime_overflow_iff (clk : ClockReading) (relative_ms : Nat)
    (hok : clk.err = 0) (h0 : 0 ≤ clk.time.tv_nsec)
    (h1 : clk.time.tv_nsec < 9223372036854775808) :
    ((to_abstime clk relative_ms).overflow ≠ 0 ↔
        (18446744073709551616 : Int) ≤ clk.time.tv_nsec + (relative_ms : Int) * 1000000) ∧
    (to_abstime clk relative_ms).stderr =
      (if (18446744073709551616 : Int) ≤ clk.time.tv_nsec + (relative_ms : Int) * 1000000
        then [Stderr.to_abstime_overflow relative_ms clk.time.tv_sec clk.time.tv_nsec]
        else []) := by
  have hu : to_u64 clk.time.tv_nsec = clk.time.tv_nsec.toNat :=
    to_u64_of_nonneg _ h0 (by omega)
  have key : (0 ||| bool_to_int (umull_overflow relative_ms ONE_MILLION).1
        ||| bool_to_int (uaddl_overflow (to_u64 clk.time.tv_nsec)
              (umull_overflow relative_ms ONE_MILLION).2).1 ≠ 0) ↔
      (18446744073709551616 : Int) ≤ clk.time.tv_nsec + (relative_ms : Int) * 1000000 := by
    rw [bool_to_int_or, hu]
    simp only [umull_overflow, uaddl_overflow, ONE_MILLION, decide_eq_true_eq]
    omega
  constructor
  · simp only [to_abstime, hok, if_true]
    exact key
  · simp only [to_abstime, hok, if_true]
    by_cases hc : (18446744073709551616 : Int) ≤ clk.time.tv_nsec + (relative_ms : Int) * 1000000
    · rw [if_pos hc, if_pos (key.mpr hc)]
    · rw [if_neg hc, if_neg (fun h => hc (key.mp h))]

theorem to_abstime_out (clk : ClockReading) (relative_ms : Nat) (hok : clk.err = 0) :
    (to_abstime clk relative_ms).out_abstime = some
      { tv_sec := to_i64 ((to_u64 clk.time.tv_sec
            + (to_u64 clk.time.tv_nsec + relative_ms * 1000000 % 18446744073709551616)
                % 18446744073709551616 / 1000000000) % 18446744073709551616)
        tv_nsec := to_i64
          (((to_u64 clk.time.tv_nsec + relative_ms * 1000000 % 18446744073709551616)
              % 18446744073709551616 + 18446744073709551616
            - ((to_u64 clk.time.tv_nsec + relative_ms * 1000000 % 18446744073709551616)
                % 18446744073709551616 / 1000000000 * 1000000000) % 18446744073709551616)
            % 18446744073709551616) } := by
  simp only [to_abstime, hok, if_true, umull_overflow, uaddl_overflow, ONE_MILLION, ONE_BILLION]

/-- C2: when the clock query succeeds with `0 ≤ tv_nsec < 10^9`, the nanosecond sum
`tv_nsec + relative_ms * 10^6` fits `u64` and the resulting seconds fit `time_t`,
the deadline `to_abstime` stores is exactly the current time plus `relative_ms`
milliseconds; with `relative_ms = 0` it is the current time. -/
theorem to_abstime_exact (clk : ClockReading) (relative_ms : Nat)
    (hok : clk.err = 0)
    (hns0 : 0 ≤ clk.time.tv_nsec) (hns1 : clk.time.tv_nsec < 1000000000)
    (hfit : clk.time.tv_nsec + (relative_ms : Int) * 1000000 < 18446744073709551616)
    (hsec0 : -9223372036854775808 ≤ clk.time.tv_sec)
    (hsec1 : clk.time.tv_sec + (clk.time.tv_nsec + (relative_ms : Int) * 1000000) / 1000000000
        < 9223372036854775808) :
    ∃ out : Timespec,
      (to_abstime clk relative_ms).out_abstime = some out ∧
      out.tv_sec * 1000000000 + out.tv_nsec
        = clk.time.tv_sec * 1000000000 + clk.time.tv_nsec + (relative_ms : Int) * 1000000 ∧
      (relative_ms = 0 → out = clk.time) := by
  have hu : to_u64 clk.time.tv_nsec = clk.time.tv_nsec.toNat :=
    to_u64_of_nonneg _ hns0 (by omega)
  obtain ⟨n, hn⟩ : ∃ n : Nat, clk.time.tv_nsec = (n : Int) := ⟨_, (Int.toNat_of_nonneg hns0).symm⟩
  have hnn : clk.time.tv_nsec.toNat = n := by omega
  have hend : (n + relative_ms * 1000000 % 18446744073709551616) % 18446744073709551616
      = n + relative_ms * 1000000 := by omega
  have hsec : to_i64 ((to_u64 clk.time.tv_sec + (n + relative_ms * 1000000) / 1000000000)
        % 18446744073709551616)
      = clk.time.tv_sec + ((n + relative_ms * 1000000) / 1000000000 : Nat) :=
    to_i64_wrap_add _ _ hsec0 (by omega) (by omega)
  have hnsec : to_i64 ((n + relative_ms * 1000000 + 18446744073709551616
        - ((n + relative_ms * 1000000) / 1000000000 * 1000000000) % 18446744073709551616)
          % 18446744073709551616)
      = ((n + relative_ms * 1000000) % 1000000000 : Nat) := by
    rw [sub_mul_div_wrap _ (by omega)]
    exact to_i64_of_lt _ (by omega)
  refine ⟨_, to_abstime_out clk relative_ms hok, ?_, ?_⟩
  · simp only [hu, hnn, hend, hsec, hnsec]
    omega
  · intro h0
    subst h0
    have e : clk.time = ⟨clk.time.tv_sec, clk.time.tv_nsec⟩ := rfl
    rw [e]
    simp only [hu, hnn, hend, hsec, hnsec, Timespec.mk.injEq]
    omega

/-- C5: when the clock query succeeds with a non-negative `tv_nsec`, overflow
detected or not, the deadline `to_abstime` stores has `tv_nsec = end_nsec mod 10^9`,
inside `[0, 10^9)`, for `end_nsec` the nanosecond sum wrapped to 64 bits; and
`tv_sec = curr.tv_sec + end_nsec / 10^9` whenever that sum of seconds is a
`time_t`. -/
theorem to_abstime_normalised (clk : ClockReading) (relative_ms : Nat)
    (hok : clk.err = 0)
    (hns0 : 0 ≤ clk.time.tv_nsec) (hns1 : clk.time.tv_nsec < 9223372036854775808) :
    ∃ out : Timespec,
      (to_abstime clk relative_ms).out_abstime = some out ∧
      0 ≤ out.tv_nsec ∧ out.tv_nsec < 1000000000 ∧
      out.tv_nsec = (((clk.time.tv_nsec.toNat + relative_ms * 1000000) % 18446744073709551616
          % 1000000000 : Nat) : Int) ∧
      (-9223372036854775808 ≤ clk.time.tv_sec →
        clk.time.tv_sec
          + (((clk.time.tv_nsec.toNat + relative_ms * 1000000) % 18446744073709551616
              / 1000000000 : Nat) : Int) < 9223372036854775808 →
        out.tv_sec = clk.time.tv_sec
          + (((clk.time.tv_nsec.toNat + relative_ms * 1000000) % 18446744073709551616
              / 1000000000 : Nat) : Int)) := by
  have hu : to_u64 clk.time.tv_nsec = clk.time.tv_nsec.toNat :=
    to_u64_of_nonneg _ hns0 (by omega)
  have hend : (clk.time.tv_nsec.toNat + relative_ms * 1000000 % 18446744073709551616)
        % 18446744073709551616
      = (clk.time.tv_nsec.toNat + relative_ms * 1000000) % 18446744073709551616 := by
    omega
  have hlt : (clk.time.tv_nsec.toNat + relative_ms * 1000000) % 18446744073709551616
      < 18446744073709551616 := Nat.mod_lt _ (by decide)
  generalize (clk.time.tv_nsec.toNat + relative_ms * 1000000) % 18446744073709551616 = e
    at hend hlt ⊢
  have hnsec : to_i64 ((e + 18446744073709551616
        - (e / 1000000000 * 1000000000) % 18446744073709551616) % 18446744073709551616)
      = ((e % 1000000000 : Nat) : Int) := by
    rw [sub_mul_div_wrap _ hlt]
    exact to_i64_of_lt _ (by omega)
  refine ⟨_, to_abstime_out clk relative_ms hok, ?_, ?_, ?_, ?_⟩
  · simp only [hu, hend, hnsec]
    omega
  · simp only [hu, hend, hnsec]
    omega
  · simp only [hu, hend, hnsec]
  · intro hsec0 hsec1
    simp only [hu, hend]
    exact to_i64_wrap_add _ _ hsec0 hsec1 (by omega)

theorem msleep_loop_returns (pre : List NanosleepOutcome) (o : NanosleepOutcome)
    (post : List NanosleepOutcome) (ts : Timespec)
    (hpre : ∀ p ∈ pre, p.res ≠ 0 ∧ p.errno = EINTR)
    (ho : ¬ (o.res ≠ 0 ∧ o.errno = EINTR)) :
    msleep_loop ts (pre ++ o :: post) = some (o.res, ts :: pre.map NanosleepOutcome.rem) := by
  induction pre generalizing ts with
  | nil => simp only [List.nil_append, msleep_loop, if_neg ho, List.map_nil]
  | cons p pre ih =>
    have hp : p.res ≠ 0 ∧ p.errno = EINTR := hpre p (List.mem_cons_self _ _)
    have ih' := ih p.rem (fun q hq => hpre q (List.mem_cons_of_mem _ hq))
    simp only [List.cons_append, msleep_loop, if_pos hp, List.append_eq, ih', List.map_cons]

theorem msleep_loop_blocked (env : List NanosleepOutcome) (ts : Timespec)
    (h : ∀ p ∈ env, p.res ≠ 0 ∧ p.errno = EINTR) :
    msleep_loop ts env = none := by
  induction env generalizing ts with
  | nil => rfl
  | cons p env ih =>
    have hp : p.res ≠ 0 ∧ p.errno = EINTR := h p (List.mem_cons_self _ _)
    have ih' := ih p.rem (fun q hq => h q (List.mem_cons_of_mem _ hq))
    simp only [msleep_loop, if_pos hp, ih']

theorem msleep_unfold (msec : Nat) (hm : msec < 18446744073709551616)
    (env : List NanosleepOutcome) :
    msleep msec env =
      match msleep_loop
          { tv_sec := ((msec / 1000 : Nat) : Int)
            tv_nsec := ((msec % 1000 * 1000000 : Nat) : Int) } env with
      | none => none
      | some r => some { res := r.1, requests := r.2, set_einval := false } := by
  have h1 : to_i64 (msec / 1000) = ((msec / 1000 : Nat) : Int) := to_i64_of_lt _ (by omega)
  have h2 : to_i64 ((msec % 1000) * 1000000 % 18446744073709551616)
      = ((msec % 1000 * 1000000 : Nat) : Int) := by
    have : (msec % 1000) * 1000000 % 18446744073709551616 = msec % 1000 * 1000000 := by omega
    rw [this]
    exact to_i64_of_lt _ (by omega)
  simp only [msleep, Nat.not_lt_zero, if_false, h1, h2]

/-- C3, at a concrete input: 18446744073710 ms from a clock at 999999999 ns
overflow and are reported. -/
theorem to_abstime_overflow_iff_witness :
    ((0 : Int) = 0 ∧ (0 : Int) ≤ 999999999 ∧ (999999999 : Int) < 9223372036854775808) ∧
    (to_abstime { err := 0, time := { tv_sec := 1700000000, tv_nsec := 999999999 } }
        18446744073710).overflow ≠ 0 ∧
    (to_abstime { err := 0, time := { tv_sec := 1700000000, tv_nsec := 999999999 } }
        18446744073710).stderr
      = [Stderr.to_abstime_overflow 18446744073710 1700000000 999999999] := by
  have h := to_abstime_overflow_iff
    { err := 0, time := { tv_sec := 1700000000, tv_nsec := 999999999 } } 18446744073710
    rfl (by decide) (by decide)
  refine ⟨⟨rfl, by decide, by decide⟩, h.1.mpr (by decide), ?_⟩
  rw [h.2]
  decide

/-- C2, at a concrete input: one millisecond after 1700000000 s 999999999 ns is
1700000001 s 999999 ns. -/
theorem to_abstime_exact_witness :
    ((0 : Int) = 0 ∧ (0 : Int) ≤ 999999999 ∧ (999999999 : Int) < 1000000000 ∧
      (999999999 : Int) + 1 * 1000000 < 18446744073709551616 ∧
      (-9223372036854775808 : Int) ≤ 1700000000 ∧
      (1700000000 : Int) + (999999999 + 1 * 1000000) / 1000000000 < 9223372036854775808) ∧
    ∃ out : Timespec,
      (to_abstime { err := 0, time := { tv_sec := 1700000000, tv_nsec := 999999999 } }
          1).out_abstime = some out ∧
      out.tv_sec * 1000000000 + out.tv_nsec = 1700000001000999999 := by
  obtain ⟨out, h1, h2, _⟩ := to_abstime_exact
    { err := 0, time := { tv_sec := 1700000000, tv_nsec := 999999999 } } 1
    rfl (by decide) (by decide) (by decide) (by decide) (by decide)
  exact ⟨by decide, out, h1, by rw [h2]; decide⟩

/-- C5, at a concrete input on which overflow is detected: 18446744073710 ms from
a clock at 999999999 ns wrap to 1000448383 ns, stored as one more second and
448383 ns. -/
theorem to_abstime_normalised_witness :
    ((0 : Int) = 0 ∧ (0 : Int) ≤ 999999999 ∧ (999999999 : Int) < 9223372036854775808) ∧
    (to_abstime { err := 0, time := { tv_sec := 1700000000, tv_nsec := 999999999 } }
        18446744073710).overflow = 1 ∧
    ∃ out : Timespec,
      (to_abstime { err := 0, time := { tv_sec := 1700000000, tv_nsec := 999999999 } }
          18446744073710).out_abstime = some out ∧
      out.tv_nsec = 448383 ∧ out.tv_sec = 1700000001 := by
  obtain ⟨out, h1, _, _, h4, h5⟩ := to_abstime_normalised
    { err := 0, time := { tv_sec := 1700000000, tv_nsec := 999999999 } } 18446744073710
    rfl (by decide) (by decide)
  exact ⟨by decide, by decide, out, h1, by rw [h4]; decide,
    by rw [h5 (by decide) (by decide)]; decide⟩

/-- C10: for every `msec` of type `u64`, the first `nanosleep` request of `msleep`
is `msec / 1000` seconds and `(msec mod 1000) * 10^6` nanoseconds, which is
`msec * 10^6` nanoseconds with a nanosecond field in `[0, 10^9)`; after each
interrupted call (non-zero result, `errno = EINTR`) it calls `nanosleep` again
with the remaining time that call stored, and it returns the result of the first
call that is not interrupted; while every call is interrupted it does not return;
it never takes the `EINVAL` branch. -/
theorem msleep_spec (msec : Nat) (hm : msec < 18446744073709551616)
    (env : List NanosleepOutcome) :
    (((msec / 1000 : Nat) : Int) * 1000000000 + ((msec % 1000 * 1000000 : Nat) : Int)
        = (msec : Int) * 1000000 ∧
      (0 : Int) ≤ ((msec % 1000 * 1000000 : Nat) : Int) ∧
      ((msec % 1000 * 1000000 : Nat) : Int) < 1000000000) ∧
    (∀ (pre : List NanosleepOutcome) (o : NanosleepOutcome) (post : List NanosleepOutcome),
      env = pre ++ o :: post →
      (∀ p ∈ pre, p.res ≠ 0 ∧ p.errno = EINTR) →
      ¬ (o.res ≠ 0 ∧ o.errno = EINTR) →
      msleep msec env = some
        { res := o.res
          requests :=
            { tv_sec := ((msec / 1000 : Nat) : Int)
              tv_nsec := ((msec % 1000 * 1000000 : Nat) : Int) }
              :: pre.map NanosleepOutcome.rem
          set_einval := false }) ∧
    ((∀ p ∈ env, p.res ≠ 0 ∧ p.errno = EINTR) → msleep msec env = none) ∧
    (∀ r, msleep msec env = some r → r.set_einval = false) := by
  refine ⟨⟨by omega, by omega, by omega⟩, ?_, ?_, ?_⟩
  · intro pre o post henv hpre ho
    rw [msleep_unfold msec hm, henv, msleep_loop_returns pre o post _ hpre ho]
  · intro h
    rw [msleep_unfold msec hm, msleep_loop_blocked env _ h]
  · intro r hr
    rw [msleep_unfold msec hm] at hr
    cases hl : msleep_loop
        { tv_sec := ((msec / 1000 : Nat) : Int)
          tv_nsec := ((msec % 1000 * 1000000 : Nat) : Int) } env with
    | none => rw [hl] at hr; cases hr
    | some x =>
      rw [hl] at hr
      simp only [Option.some.injEq] at hr
      rw [← hr]

/-- C10, at a concrete input: `msleep(1500)` interrupted once with 1 s and 2 ns
remaining. -/
theorem msleep_spec_witness :
    (1500 : Nat) < 18446744073709551616 ∧
    msleep 1500
        [{ res := -1, errno := EINTR, rem := { tv_sec := 1, tv_nsec := 2 } },
         { res := 0, errno := 0, rem := { tv_sec := 0, tv_nsec := 0 } }]
      = some
        { res := 0
          requests := [{ tv_sec := 1, tv_nsec := 500000000 }, { tv_sec := 1, tv_nsec := 2 }]
          set_einval := false } :=
  ⟨by decide,
    (msleep_spec 1500 (by decide) _).2.1
      [{ res := -1, errno := EINTR, rem := { tv_sec := 1, tv_nsec := 2 } }]
      { res := 0, errno := 0, rem := { tv_sec := 0, tv_nsec := 0 } } [] rfl
      (by decide) (by decide)⟩

theorem wait_loop_nil (a : Option Timespec) :
    wait_loop a false 0 [] = { trace := [Event.cond_timedwait a], calls := 1, final := none } := by
  rfl

theorem wait_loop_cons (a : Option Timespec) (o : WaitOutcome) (rest : List WaitOutcome) :
    wait_loop a false 0 (o :: rest) =
      { trace :=
          Event.cond_timedwait a
            :: Event.stdout_iter
                ((stopwatch_stop (stopwatch_start o.start_clk).1 o.stop_clk).1.during_ns
                  / ONE_MILLION) o.flag o.wait_result
            :: (wait_loop a o.flag o.wait_result rest).trace
        calls := (wait_loop a o.flag o.wait_result rest).calls + 1
        final := (wait_loop a o.flag o.wait_result rest).final } := by
  rfl

theorem wait_loop_exit (a : Option Timespec) (flag : Bool) (w : Int) (outs : List WaitOutcome)
    (h : w ≠ 0 ∨ flag = true) :
    wait_loop a flag w outs = { trace := [], calls := 0, final := some (flag, w) } := by
  have hc : ¬ ((flag == false && w == 0) = true) := by
    rcases h with h | h
    · simp [h]
    · simp [h]
  unfold wait_loop
  rw [if_neg hc]

theorem wait_loop_count (a : Option Timespec) (outs : List WaitOutcome) (flag : Bool) (w : Int) :
    List.count (Event.cond_timedwait a) (wait_loop a flag w outs).trace
      = (wait_loop a flag w outs).calls := by
  induction outs generalizing flag w with
  | nil =>
    by_cases h : w ≠ 0 ∨ flag = true
    · rw [wait_loop_exit a flag w [] h]; rfl
    · have hw : w = 0 := by by_contra hw; exact h (Or.inl hw)
      have hf : flag = false := by cases flag; rfl; exact absurd (Or.inr rfl) h
      subst hw; subst hf
      rw [wait_loop_nil]
      simp
  | cons o rest ih =>
    by_cases h : w ≠ 0 ∨ flag = true
    · rw [wait_loop_exit a flag w _ h]; rfl
    · have hw : w = 0 := by by_contra hw; exact h (Or.inl hw)
      have hf : flag = false := by cases flag; rfl; exact absurd (Or.inr rfl) h
      subst hw; subst hf
      rw [wait_loop_cons]
      simp [ih]

theorem wait_loop_first (a : Option Timespec) (outs : List WaitOutcome) :
    Event.cond_timedwait a ∈ (wait_loop a false 0 outs).trace ∧
      1 ≤ (wait_loop a false 0 outs).calls := by
  cases outs with
  | nil => rw [wait_loop_nil]; simp
  | cons o rest => rw [wait_loop_cons]; simp

theorem wait_loop_returns (a : Option Timespec) (pre : List WaitOutcome) (o : WaitOutcome)
    (post : List WaitOutcome)
    (hpre : ∀ p ∈ pre, p.wait_result = 0 ∧ p.flag = false)
    (ho : o.wait_result ≠ 0 ∨ o.flag = true) :
    (wait_loop a false 0 (pre ++ o :: post)).calls = pre.length + 1 ∧
      (wait_loop a false 0 (pre ++ o :: post)).final = some (o.flag, o.wait_result) := by
  induction pre with
  | nil =>
    rw [List.nil_append, wait_loop_cons, wait_loop_exit a o.flag o.wait_result post ho]
    exact ⟨rfl, rfl⟩
  | cons p pre ih =>
    have hp := hpre p (List.mem_cons_self _ _)
    have ih' := ih (fun q hq => hpre q (List.mem_cons_of_mem _ hq))
    rw [List.cons_append, wait_loop_cons, hp.1, hp.2]
    exact ⟨by rw [ih'.1]; rfl, ih'.2⟩

theorem wait_loop_parked (a : Option Timespec) (outs : List WaitOutcome)
    (h : ∀ p ∈ outs, p.wait_result = 0 ∧ p.flag = false) :
    (wait_loop a false 0 outs).calls = outs.length + 1 ∧
      (wait_loop a false 0 outs).final = none := by
  induction outs with
  | nil => rw [wait_loop_nil]; exact ⟨rfl, rfl⟩
  | cons p outs ih =>
    have hp := h p (List.mem_cons_self _ _)
    have ih' := ih (fun q hq => h q (List.mem_cons_of_mem _ hq))
    rw [wait_loop_cons, hp.1, hp.2]
    exact ⟨by rw [ih'.1]; rfl, ih'.2⟩

theorem main_wait_summary (env : MainEnv) (wt : Option Timespec) (t : List Event) (f : Bool) (w : Int)
    (h : (wait_loop wt false 0 env.waits).final = some (f, w)) :
    (t ++ Event.flag_store false :: (wait_loop wt false 0 env.waits).trace
        ++ [summary w, Event.mutex_unlock]) <+: (main_wait env wt t).trace := by
  simp only [main_wait, h, exit_if_error]
  split_ifs <;> simp [List.append_assoc]

theorem main_wait_enters (env : MainEnv) (wt : Option Timespec) (t : List Event) :
    (t ++ Event.flag_store false :: (wait_loop wt false 0 env.waits).trace)
      <+: (main_wait env wt t).trace := by
  cases h : (wait_loop wt false 0 env.waits).final with
  | none => simp [main_wait, h]
  | some fw =>
    obtain ⟨f, w⟩ := fw
    refine List.IsPrefix.trans ?_ (main_wait_summary env wt t f w h)
    simp [List.append_assoc]

theorem main_wait_parked (env : MainEnv) (wt : Option Timespec) (t : List Event)
    (h : (wait_loop wt false 0 env.waits).final = none) :
    main_wait env wt t =
      { trace := t ++ [Event.flag_store false] ++ (wait_loop wt false 0 env.waits).trace
        exit := none } := by
  simp only [main_wait, h]

theorem to_i32_range (x : Int) : -2147483648 ≤ to_i32 x ∧ to_i32 x < 2147483648 := by
  unfold to_i32
  split <;> omega

theorem to_u64_atoi_eq_zero (s : String) : to_u64 (atoi s) = 0 ↔ atoi s = 0 := by
  have h := to_i32_range (strtol s.toList)
  unfold atoi to_u64
  omega

theorem to_abstime_err (clk : ClockReading) (ms : Nat) : (to_abstime clk ms).err = clk.err := by
  by_cases h : clk.err = 0
  · simp only [to_abstime, h, if_true]
  · simp only [to_abstime, h, if_false]

theorem to_abstime_unwritten (clk : ClockReading) (ms : Nat) (h : clk.err ≠ 0) :
    (to_abstime clk ms).out_abstime = none ∧
      (to_abstime clk ms).stderr = [Stderr.clock_gettime_failed clk.err] := by
  simp only [to_abstime, h, if_false, and_self]

theorem main_to_lock (env : MainEnv) (h2 : atoi env.argv2 ≠ 0)
    (hm : env.mutex_init_err = 0) (hc : env.cond_init_err = 0) (ht : env.create_err = 0)
    (hl : env.lock_err = 0) :
    main env =
      if (to_abstime env.clock (to_u64 (atoi env.argv1))).err ≠ 0 then
        { trace :=
            (if to_u64 (atoi env.argv1) = 0 then [Event.stderr Stderr.arg1_failed] else [])
              ++ [Event.flag_store false, Event.mutex_init, Event.cond_init,
                  Event.thread_create (to_u64 (atoi env.argv2)), Event.mutex_lock]
              ++ (to_abstime env.clock (to_u64 (atoi env.argv1))).stderr.map Event.stderr
          exit := some EXIT_FAILURE }
      else
        main_wait env (to_abstime env.clock (to_u64 (atoi env.argv1))).out_abstime
          ((if to_u64 (atoi env.argv1) = 0 then [Event.stderr Stderr.arg1_failed] else [])
              ++ [Event.flag_store false, Event.mutex_init, Event.cond_init,
                  Event.thread_create (to_u64 (atoi env.argv2)), Event.mutex_lock]
              ++ (to_abstime env.clock (to_u64 (atoi env.argv1))).stderr.map Event.stderr) := by
  have h2' : ¬ to_u64 (atoi env.argv2) = 0 := fun h => h2 ((to_u64_atoi_eq_zero _).mp h)
  simp only [main, if_neg h2', exit_if_error, hm, hc, ht, hl, ne_eq, not_true_eq_false, if_false,
    List.append_assoc, List.cons_append, List.nil_append]

/-- C1: against every sequence of wait outcomes the loop of `main` makes at least
one `pthread_cond_timedwait` call, all with the same deadline; it goes past
outcomes with status 0 and the flag still false, and leaves at the first outcome
`o` with a non-zero status (`ETIMEDOUT`: expired, other: failed) or with the flag
true (signaled), after one call more than the spurious wake-ups before it; the
summary printed next is the success line when that status is 0 and otherwise the
failure line carrying it.  While every outcome is a spurious wake-up `main` stays
in the loop. -/
theorem wait_loop_spec (env : MainEnv) (wait_time : Option Timespec) (t : List Event) :
    (1 ≤ (wait_loop wait_time false 0 env.waits).calls ∧
      List.count (Event.cond_timedwait wait_time) (wait_loop wait_time false 0 env.waits).trace
        = (wait_loop wait_time false 0 env.waits).calls) ∧
    (∀ (pre : List WaitOutcome) (o : WaitOutcome) (post : List WaitOutcome),
      env.waits = pre ++ o :: post →
      (∀ p ∈ pre, p.wait_result = 0 ∧ p.flag = false) →
      (o.wait_result ≠ 0 ∨ o.flag = true) →
      (wait_loop wait_time false 0 env.waits).calls = pre.length + 1 ∧
      (wait_loop wait_time false 0 env.waits).final = some (o.flag, o.wait_result) ∧
      (t ++ Event.flag_store false :: (wait_loop wait_time false 0 env.waits).trace
          ++ [summary o.wait_result, Event.mutex_unlock]) <+: (main_wait env wait_time t).trace ∧
      (summary o.wait_result = Event.stdout_succeeded ↔ o.wait_result = 0) ∧
      (summary o.wait_result = Event.stdout_failed o.wait_result ↔ o.wait_result ≠ 0)) ∧
    ((∀ p ∈ env.waits, p.wait_result = 0 ∧ p.flag = false) →
      (wait_loop wait_time false 0 env.waits).calls = env.waits.length + 1 ∧
      (wait_loop wait_time false 0 env.waits).final = none ∧
      (main_wait env wait_time t).exit = none) := by
  refine ⟨⟨(wait_loop_first _ _).2, wait_loop_count _ _ _ _⟩, ?_, ?_⟩
  · intro pre o post hw hpre ho
    have h := wait_loop_returns wait_time pre o post hpre ho
    rw [← hw] at h
    refine ⟨h.1, h.2, main_wait_summary env wait_time t _ _ h.2, ?_, ?_⟩
    · by_cases hz : o.wait_result = 0 <;> simp [summary, hz]
    · by_cases hz : o.wait_result = 0 <;> simp [summary, hz]
  · intro h
    have hp := wait_loop_parked wait_time env.waits h
    refine ⟨hp.1, hp.2, ?_⟩
    rw [main_wait_parked env wait_time t hp.2]

/-- C1, at a concrete input: one spurious wake-up, then a timeout. -/
theorem wait_loop_spec_witness :
    (wait_loop (some ⟨5, 0⟩) false 0 [sample_wait 0 false, sample_wait ETIMEDOUT false]).calls
        = 2 ∧
    (wait_loop (some ⟨5, 0⟩) false 0 [sample_wait 0 false, sample_wait ETIMEDOUT false]).final
        = some (false, ETIMEDOUT) ∧
    summary ETIMEDOUT = Event.stdout_failed ETIMEDOUT := by
  have h := (wait_loop_spec
    (env_ok "1000" "100" sample_clock [sample_wait 0 false, sample_wait ETIMEDOUT false])
    (some ⟨5, 0⟩) []).2.1 [sample_wait 0 false] (sample_wait ETIMEDOUT false) [] rfl
    (by decide) (by decide)
  exact ⟨h.1, h.2.1, h.2.2.2.2.mpr (by decide)⟩

/-- C4: `to_abstime` returns the status of its clock query.  When the query fails
nothing is stored through `out_abstime`, and `main`, having got as far as the
call, prints the clock diagnostic and exits with `EXIT_FAILURE` without any
`pthread_cond_timedwait` call.  When it succeeds `to_abstime` returns 0 and stores
the deadline computed from the nanosecond sum wrapped to 64 bits, overflow
detected or not, and `main` goes on to wait with that deadline. -/
theorem to_abstime_status (env : MainEnv) (h2 : atoi env.argv2 ≠ 0)
    (hm : env.mutex_init_err = 0) (hc : env.cond_init_err = 0) (ht : env.create_err = 0)
    (hl : env.lock_err = 0) :
    (∀ (clk : ClockReading) (ms : Nat),
      ((to_abstime clk ms).err ≠ 0 ↔ clk.err ≠ 0) ∧
      (clk.err ≠ 0 → (to_abstime clk ms).out_abstime = none) ∧
      (clk.err = 0 →
        (to_abstime clk ms).err = 0 ∧
        (to_abstime clk ms).out_abstime = some
          { tv_sec := to_i64 ((to_u64 clk.time.tv_sec
                + (to_u64 clk.time.tv_nsec + ms * 1000000 % 18446744073709551616)
                    % 18446744073709551616 / 1000000000) % 18446744073709551616)
            tv_nsec := to_i64
              (((to_u64 clk.time.tv_nsec + ms * 1000000 % 18446744073709551616)
                  % 18446744073709551616 + 18446744073709551616
                - ((to_u64 clk.time.tv_nsec + ms * 1000000 % 18446744073709551616)
                    % 18446744073709551616 / 1000000000 * 1000000000) % 18446744073709551616)
                % 18446744073709551616) })) ∧
    (env.clock.err ≠ 0 →
      main env =
        { trace :=
            (if to_u64 (atoi env.argv1) = 0 then [Event.stderr Stderr.arg1_failed] else [])
              ++ [Event.flag_store false, Event.mutex_init, Event.cond_init,
                  Event.thread_create (to_u64 (atoi env.argv2)), Event.mutex_lock,
                  Event.stderr (Stderr.clock_gettime_failed env.clock.err)]
          exit := some EXIT_FAILURE } ∧
      ∀ d, Event.cond_timedwait d ∉ (main env).trace) ∧
    (env.clock.err = 0 →
      ∃ out : Timespec,
        (to_abstime env.clock (to_u64 (atoi env.argv1))).out_abstime = some out ∧
        Event.cond_timedwait (some out) ∈ (main env).trace) := by
  refine ⟨?_, ?_, ?_⟩
  · intro clk ms
    refine ⟨by rw [to_abstime_err], fun h => (to_abstime_unwritten clk ms h).1, fun h => ?_⟩
    exact ⟨by rw [to_abstime_err, h], to_abstime_out clk ms h⟩
  · intro h
    have he : (to_abstime env.clock (to_u64 (atoi env.argv1))).err ≠ 0 := by
      rw [to_abstime_err]; exact h
    rw [main_to_lock env h2 hm hc ht hl, if_pos he,
      (to_abstime_unwritten env.clock (to_u64 (atoi env.argv1)) h).2]
    refine ⟨by simp, ?_⟩
    intro d
    split_ifs <;> simp
  · intro h
    have he : ¬ (to_abstime env.clock (to_u64 (atoi env.argv1))).err ≠ 0 := by
      rw [to_abstime_err]; exact fun hne => hne h
    refine ⟨_, to_abstime_out env.clock (to_u64 (atoi env.argv1)) h, ?_⟩
    rw [main_to_lock env h2 hm hc ht hl, if_neg he, to_abstime_out env.clock _ h]
    apply (main_wait_enters env _ _).subset
    simp only [List.mem_append, List.mem_cons]
    exact Or.inr (Or.inr (wait_loop_first _ _).1)

/-- C4, at a concrete input: the clock query of `to_abstime` fails with -1. -/
theorem to_abstime_status_witness :
    (atoi "100" ≠ 0 ∧ (0 : Int) = 0) ∧
    (main (env_ok "1000" "100" { err := -1, time := { tv_sec := 0, tv_nsec := 0 } } [])).exit
      = some EXIT_FAILURE :=
  ⟨⟨by decide, rfl⟩,
    ((to_abstime_status
      (env_ok "1000" "100" { err := -1, time := { tv_sec := 0, tv_nsec := 0 } } [])
      (by decide) rfl rfl rfl rfl).2.1 (by decide)).1 ▸ rfl⟩

/-- C8, as stated, fails: the second argument "-5" is not a positive integer, and
`main` does not exit at the argument check; it creates the mutex, the condition
and the setter thread (with a sleep of 2^64 - 5 ms) and enters the wait loop. -/
theorem main_negative_arg2_proceeds :
    atoi "-5" = -5 ∧
    main (env_ok "1000" "-5" sample_clock []) =
      { trace :=
          [Event.flag_store false, Event.mutex_init, Event.cond_init,
            Event.thread_create 18446744073709551611, Event.mutex_lock,
            Event.flag_store false,
            Event.cond_timedwait (some { tv_sec := 1700000001, tv_nsec := 999999999 })]
        exit := none } := by
  constructor
  · decide
  · decide

/-- C8, amended: `main` takes the exit at the second-argument check exactly when
`atoi(argv[2])` is 0, and then it has done nothing but print the argument
diagnostics; exactly when `atoi(argv[2])` is not 0, positive or negative, it goes on
to initialise the flag and the mutex. -/
theorem main_arg2_exit (env : MainEnv) :
    (main env =
        { trace :=
            (if to_u64 (atoi env.argv1) = 0 then [Event.stderr Stderr.arg1_failed] else [])
              ++ [Event.stderr Stderr.arg2_failed]
          exit := some EXIT_FAILURE }
      ↔ atoi env.argv2 = 0) ∧
    (((if to_u64 (atoi env.argv1) = 0 then [Event.stderr Stderr.arg1_failed] else [])
          ++ [Event.flag_store false, Event.mutex_init]) <+: (main env).trace
      ↔ atoi env.argv2 ≠ 0) ∧
    atoi "0" = 0 ∧ atoi "abc" = 0 ∧ atoi "" = 0 ∧ atoi "100" = 100 ∧ atoi "-5" = -5 := by
  have hexit : atoi env.argv2 = 0 →
      main env =
        { trace :=
            (if to_u64 (atoi env.argv1) = 0 then [Event.stderr Stderr.arg1_failed] else [])
              ++ [Event.stderr Stderr.arg2_failed]
          exit := some EXIT_FAILURE } := by
    intro h
    have h' : to_u64 (atoi env.argv2) = 0 := (to_u64_atoi_eq_zero _).mpr h
    simp only [main, h', if_true]
  have hgo : atoi env.argv2 ≠ 0 →
      ((if to_u64 (atoi env.argv1) = 0 then [Event.stderr Stderr.arg1_failed] else [])
          ++ [Event.flag_store false, Event.mutex_init]) <+: (main env).trace := by
    intro h
    have h' : ¬ to_u64 (atoi env.argv2) = 0 := fun e => h ((to_u64_atoi_eq_zero _).mp e)
    simp only [main, if_neg h', exit_if_error]
    split_ifs
    all_goals first
      | (simp [List.append_assoc]; done)
      | (refine List.IsPrefix.trans ?_ (main_wait_enters env _ _)
         simp [List.append_assoc])
  refine ⟨⟨fun hm => ?_, hexit⟩, ⟨fun hp => ?_, hgo⟩, by decide, by decide, by decide,
    by decide, by decide⟩
  · by_contra hne
    have hp := hgo hne
    rw [hm] at hp
    obtain ⟨r, hr⟩ := hp
    simp only [List.append_assoc, List.append_cancel_left_eq] at hr
    simp at hr
  · intro hz
    rw [hexit hz] at hp
    obtain ⟨r, hr⟩ := hp
    simp only [List.append_assoc, List.append_cancel_left_eq] at hr
    simp at hr

theorem set_flag_always_stores (sleep_ms : Nat) (env : SetFlagEnv) (t : List Event)
    (h : set_flag sleep_ms env = some t) :
    Event.flag_store true ∈ t ∧ Event.cond_signal ∈ t ∧ Event.mutex_unlock ∈ t ∧
      t.getLast? = some Event.thread_return := by
  unfold set_flag at h
  cases hm : msleep sleep_ms env.sleep with
  | none => simp [hm] at h
  | some r =>
    simp only [hm, Option.some.injEq] at h
    subst h
    refine ⟨?_, ?_, ?_, ?_⟩ <;> split_ifs <;> simp

/-- C7: with `pthread_mutex_lock` returning `EINVAL`, `set_flag` prints the
diagnostic and carries on: it stores to the flag, signals, unlocks and returns to
its caller; the process is not terminated. -/
theorem set_flag_lock_failure_continues :
    set_flag 1 { sleep := [slept], lock_err := EINVAL, signal_err := 0, unlock_err := 0 } =
      some
        [Event.msleep 1, Event.mutex_lock,
          Event.stderr (Stderr.set_flag_lock_failed EINVAL),
          Event.flag_store true, Event.cond_signal, Event.mutex_unlock,
          Event.thread_return] := by
  decide

theorem step_main_lock_invariant (T : Nat) (s s' : State)
    (hs : lock_invariant s) (h : step_main T s = some s') : lock_invariant s' := by
  obtain ⟨now, flag, mutex, mpc, spc, dl, wr, calls⟩ := s
  obtain ⟨h1, h2⟩ := hs
  simp only at h1 h2
  cases mpc <;> simp only [step_main] at h <;> (try split at h) <;>
    simp only [Option.some.injEq, reduceCtorEq] at h <;> subst h <;>
    simp_all [lock_invariant, holds_main]

theorem step_setter_lock_invariant (D : Nat) (s s' : State)
    (hs : lock_invariant s) (h : step_setter D s = some s') : lock_invariant s' := by
  obtain ⟨now, flag, mutex, mpc, spc, dl, wr, calls⟩ := s
  obtain ⟨h1, h2⟩ := hs
  simp only at h1 h2
  cases spc <;> simp only [step_setter] at h <;> (try split at h) <;>
    simp only [Option.some.injEq, reduceCtorEq] at h <;> subst h <;>
    simp_all [lock_invariant, holds_setter, holds_main]

theorem step_lock_invariant (T D : Nat) (a : Action) (s s' : State)
    (hs : lock_invariant s) (h : step T D a s = some s') : lock_invariant s' := by
  cases a with
  | tick =>
    simp only [step, Option.some.injEq] at h
    subst h
    exact hs
  | main => exact step_main_lock_invariant T s s' hs h
  | setter => exact step_setter_lock_invariant D s s' hs h
  | timeout =>
    simp only [step] at h
    split at h
    · rename_i hp
      simp only [Option.some.injEq] at h
      subst h
      obtain ⟨h1, h2⟩ := hs
      simp_all [lock_invariant, holds_main]
    · cases h
  | spurious =>
    simp only [step] at h
    split at h
    · rename_i hp
      simp only [Option.some.injEq] at h
      subst h
      obtain ⟨h1, h2⟩ := hs
      simp_all [lock_invariant, holds_main]
    · cases h

theorem run_invariant (P : State → Prop) (T D : Nat)
    (hstep : ∀ (a : Action) (s s' : State), P s → step T D a s = some s' → P s')
    (sched : List Action) (s : State) (l : List State)
    (hs : P s) (h : run T D sched s = some l) : ∀ x ∈ l, P x := by
  induction sched generalizing s l with
  | nil =>
    simp only [run, Option.some.injEq] at h
    subst h
    simpa using hs
  | cons a rest ih =>
    simp only [run] at h
    cases hst : step T D a s with
    | none => simp [hst] at h
    | some s' =>
      cases hr : run T D rest s' with
      | none => simp [hst, hr] at h
      | some l' =>
        simp only [hst, hr, Option.some.injEq] at h
        subst h
        intro x hx
        rcases List.mem_cons.mp hx with rfl | hx
        · exact hs
        · exact ih s' l' (hstep a _ s' hs hst) hr x hx

/-- In every state the program reaches, a thread about to store to the flag owns
the mutex: the setter at line 111, `main` at line 171. -/
theorem store_under_mutex (T D : Nat) (sched : List Action) (l : List State)
    (h : run T D sched init = some l) (s : State) (hs : s ∈ l) :
    (s.spc = SetterPc.store → s.mutex = some Tid.setter) ∧
    (s.mpc = MainPc.reset → s.mutex = some Tid.main) := by
  have hinit : lock_invariant init := by
    simp [lock_invariant, init, holds_main, holds_setter]
  have hi := run_invariant lock_invariant T D (step_lock_invariant T D) sched init l hinit h s hs
  exact ⟨fun e => hi.2.mpr (by rw [e]; rfl), fun e => hi.1.mpr (by rw [e]; rfl)⟩

theorem step_flag_invariant (T D : Nat) (a : Action) (s s' : State)
    (hs : flag_invariant s) (h : step T D a s = some s') : flag_invariant s' := by
  obtain ⟨now, flag, mutex, mpc, spc, dl, wr, calls⟩ := s
  obtain ⟨h1, h2⟩ := hs
  simp only at h1 h2
  cases a with
  | tick =>
    simp only [step, Option.some.injEq] at h
    subst h
    exact ⟨h1, h2⟩
  | main =>
    simp only [step] at h
    cases mpc <;> simp only [step_main] at h <;> (try split at h) <;>
      simp only [Option.some.injEq, reduceCtorEq] at h <;> subst h <;>
      simp_all [flag_invariant, past_reset]
  | setter =>
    simp only [step] at h
    cases spc <;> simp only [step_setter] at h <;> (try split at h) <;>
      simp only [Option.some.injEq, reduceCtorEq] at h <;> subst h <;>
      simp_all [flag_invariant, past_reset, stored]
  | timeout =>
    simp only [step] at h
    split at h
    · simp only [Option.some.injEq] at h
      subst h
      simp_all [flag_invariant, past_reset]
    · cases h
  | spurious =>
    simp only [step] at h
    split at h
    · simp only [Option.some.injEq] at h
      subst h
      simp_all [flag_invariant, past_reset]
    · cases h

/-- Once `main` is past its store of line 171 the flag is not reset: from any such
state, in every state the program goes through afterwards, the flag is true as
soon as the setter has stored to it. -/
theorem flag_kept_after_reset (T D : Nat) (sched : List Action) (s : State) (l : List State)
    (hs : flag_invariant s) (h : run T D sched s = some l) : ∀ x ∈ l, flag_invariant x :=
  run_invariant flag_invariant T D (step_flag_invariant T D) sched s l hs h

/-- C6: with a delay of 1 ms, if `main` is not scheduled for a millisecond after
`pthread_create`, the setter stores true to the flag and `main` then stores
false to it at line 171: the values of the flag along this execution. -/
theorem flag_reset_after_set :
    (run 1000 1
        [Action.tick, Action.setter, Action.setter, Action.setter, Action.setter,
          Action.setter, Action.main, Action.main, Action.main] init).map
        (List.map fun s => (s.flag, s.mutex))
      = some
        [(false, none), (false, none), (false, none), (false, some Tid.setter),
          (true, some Tid.setter), (true, some Tid.setter), (true, none),
          (true, some Tid.main), (true, some Tid.main), (false, some Tid.main)] := by
  decide

/-- C9: with `delay_ms = 1 < timeout_ms = 2`, in the execution where the setter runs
to completion before `main` takes the mutex, the store of line 171 discards the
setter's store, nothing signals the wait, and the loop ends after one call with
`wait_result = ETIMEDOUT` and the flag false. -/
theorem wakeup_lost_when_setter_first :
    exec 2 1
        [Action.tick, Action.setter, Action.setter, Action.setter, Action.setter,
          Action.setter, Action.main, Action.main, Action.main, Action.main, Action.main,
          Action.tick, Action.tick, Action.timeout, Action.main, Action.main] init
      = some
        { now := 3, flag := false, mutex := some Tid.main, mpc := MainPc.summary,
          spc := SetterPc.done, deadline := 3, wait_result := ETIMEDOUT, calls := 1 } := by
  decide

end CondTimedwait
